import Mathlib

/-!
Shallow embedding of the analytics layer of the PJ_SANTE health-data
dashboard: the `DataQualityAnalyzer` of `scripts/quality_analysis.py`, the
`DataProfiler` of `scripts/data_profiling.py`, the duplicate queries of
`components/duplicates.py`, and the connection providers of both analyzer
classes.  The SQL queries are translated statement by statement: nullable
columns become `Option` values, SQL aggregates ignore `none`, SQL
three-valued comparisons return `Option Bool`, and a division whose
denominator is a non-null zero is the PostgreSQL `division by zero` error,
modelled with `Except`.  Numeric values are exact rationals.
-/

/-- PostgreSQL `ROUND(q, d)` on `numeric`: rounds half away from zero to
`d` decimal places. -/
def pgRound (d : Nat) (q : ℚ) : ℚ :=
  if 0 ≤ q then (⌊q * (10 : ℚ) ^ d + 1/2⌋ : ℚ) / (10 : ℚ) ^ d
  else -((⌊-q * (10 : ℚ) ^ d + 1/2⌋ : ℚ) / (10 : ℚ) ^ d)

/-- The one SQL runtime error the embedded queries can raise. -/
inductive SqlError
  | divisionByZero
deriving DecidableEq, Repr

/-- SQL division: `NULL` operands propagate (the operator is strict), and a
non-null numerator divided by a non-null zero raises `division by zero`. -/
def sqlDiv (a b : Option ℚ) : Except SqlError (Option ℚ) :=
  match a, b with
  | some x, some y => if y = 0 then .error .divisionByZero else .ok (some (x / y))
  | _, _ => .ok none

/-- SQL `AVG` over a column: ignores `NULL` entries, `NULL` when no non-null
entry exists. -/
def sqlAvg (l : List (Option ℚ)) : Option ℚ :=
  let v := l.filterMap id
  if v.length = 0 then none else some (v.sum / v.length)

/-- SQL `MIN` over an integer column: ignores `NULL`, `NULL` on no data. -/
def sqlMinInt (l : List (Option Int)) : Option Int :=
  (l.filterMap id).foldr (fun x acc => match acc with
    | none => some x
    | some y => some (min x y)) none

/-- SQL `MAX` over an integer column: ignores `NULL`, `NULL` on no data. -/
def sqlMaxInt (l : List (Option Int)) : Option Int :=
  (l.filterMap id).foldr (fun x acc => match acc with
    | none => some x
    | some y => some (max x y)) none

/-- SQL `MIN` over a numeric column. -/
def sqlMinQ (l : List (Option ℚ)) : Option ℚ :=
  (l.filterMap id).foldr (fun x acc => match acc with
    | none => some x
    | some y => some (min x y)) none

/-- SQL `MAX` over a numeric column. -/
def sqlMaxQ (l : List (Option ℚ)) : Option ℚ :=
  (l.filterMap id).foldr (fun x acc => match acc with
    | none => some x
    | some y => some (max x y)) none

/-- SQL `COUNT(column)`: the number of non-null entries. -/
def countSome (l : List (Option α)) : Nat := l.countP (·.isSome)

/-- SQL three-valued `OR`: `TRUE` dominates, otherwise `NULL` dominates. -/
def sql3Or (a b : Option Bool) : Option Bool :=
  match a, b with
  | some true, _ => some true
  | _, some true => some true
  | some false, some false => some false
  | _, _ => none

/-- One row of the `patients` table.  Every attribute except the identifier
is nullable.  `created_at` is the creation timestamp measured in days. -/
structure Patient where
  patient_id : Nat
  age : Option Int
  gender : Option String
  blood_pressure : Option ℚ
  heart_rate : Option ℚ
  temperature : Option ℚ
  patient_satisfaction : Option ℚ
  ai_diagnosis_confidence : Option ℚ
  treatment_duration : Option ℚ
  recovery_time : Option ℚ
  diagnosis_id : Option Nat
  hospital_id : Option Nat
  doctor_id : Option Nat
  medication_id : Option Nat
  created_at : Option ℚ
deriving DecidableEq, Repr

/-! ## DataQualityAnalyzer (scripts/quality_analysis.py) -/

/-- Result row of `analyze_completeness`: one percentage per tracked field,
plus the total record count. -/
structure CompletenessRow where
  total_records : Nat
  age_completeness_pct : Option ℚ
  gender_completeness_pct : Option ℚ
  bp_completeness_pct : Option ℚ
  hr_completeness_pct : Option ℚ
  temp_completeness_pct : Option ℚ
  satisfaction_completeness_pct : Option ℚ
  ai_confidence_completeness_pct : Option ℚ
deriving DecidableEq, Repr

/-- One output column of `analyze_completeness`:
`ROUND(100.0 * c / total_records, 2)` where `c` is a `COUNT` (never null)
and `total_records` is `COUNT(*)`.  A zero denominator is the PostgreSQL
`division by zero` error, exactly as in the query, which has no guard. -/
def completenessPct (c t : Nat) : Except SqlError (Option ℚ) :=
  (sqlDiv (some (100 * (c : ℚ))) (some (t : ℚ))).map (Option.map (pgRound 2))

/-- The `analyze_completeness` query of `DataQualityAnalyzer`: for each
tracked field, the percentage of non-null values over `COUNT(*)`. -/
def analyze_completeness (ps : List Patient) : Except SqlError CompletenessRow :=
  let t := ps.length
  (completenessPct (countSome (ps.map (·.age))) t).bind fun a =>
  (completenessPct (countSome (ps.map (·.gender))) t).bind fun g =>
  (completenessPct (countSome (ps.map (·.blood_pressure))) t).bind fun bp =>
  (completenessPct (countSome (ps.map (·.heart_rate))) t).bind fun hr =>
  (completenessPct (countSome (ps.map (·.temperature))) t).bind fun tm =>
  (completenessPct (countSome (ps.map (·.patient_satisfaction))) t).bind fun sat =>
  (completenessPct (countSome (ps.map (·.ai_diagnosis_confidence))) t).bind fun conf =>
  .ok ⟨t, a, g, bp, hr, tm, sat, conf⟩

/-- Result row of `analyze_consistency`. -/
structure ConsistencyRow where
  total : Nat
  valid_age_pct : Option ℚ
  valid_gender_pct : Option ℚ
  valid_bp_pct : Option ℚ
  valid_hr_pct : Option ℚ
  valid_temp_pct : Option ℚ
  valid_satisfaction_pct : Option ℚ
  valid_ai_confidence_pct : Option ℚ
deriving DecidableEq, Repr

/-- SQL `SUM(CASE WHEN cond THEN 1 ELSE 0 END)` over the patient rows: the
number of rows satisfying `cond` (a `NULL` operand makes the `WHEN`
condition not-true, hence `ELSE 0`), and `SUM` over zero rows is `NULL`. -/
def caseCountSum (ps : List Patient) (cond : Patient → Bool) : Option ℚ :=
  if ps.length = 0 then none else some (ps.countP cond)

/-- The validity test `age BETWEEN 0 AND 120` (null age is not valid). -/
def validAge (p : Patient) : Bool :=
  match p.age with
  | some a => decide (0 ≤ a ∧ a ≤ 120)
  | none => false

/-- The validity test `gender IN ('Male', 'Female')`. -/
def validGender (p : Patient) : Bool :=
  match p.gender with
  | some g => g == "Male" || g == "Female"
  | none => false

/-- A validity test `x BETWEEN lo AND hi` on a nullable numeric column. -/
def validBetween (x : Option ℚ) (lo hi : ℚ) : Bool :=
  match x with
  | some v => decide (lo ≤ v ∧ v ≤ hi)
  | none => false

/-- One output column of `analyze_consistency`:
`ROUND(100.0 * valid_c / total, 2)` where `valid_c` is a `SUM` (null over
zero rows, so a null numerator bypasses the division). -/
def validPct (ps : List Patient) (cond : Patient → Bool) (t : Nat) :
    Except SqlError (Option ℚ) :=
  (sqlDiv ((caseCountSum ps cond).map (100 * ·)) (some (t : ℚ))).map
    (Option.map (pgRound 2))

/-- The `analyze_consistency` query of `DataQualityAnalyzer`: for each
tracked field, the percentage of values inside the expected range over
`COUNT(*)`. -/
def analyze_consistency (ps : List Patient) : Except SqlError ConsistencyRow :=
  let t := ps.length
  (validPct ps validAge t).bind fun a =>
  (validPct ps validGender t).bind fun g =>
  (validPct ps (fun p => validBetween p.blood_pressure 60 200) t).bind fun bp =>
  (validPct ps (fun p => validBetween p.heart_rate 40 200) t).bind fun hr =>
  (validPct ps (fun p => validBetween p.temperature 35 42) t).bind fun tm =>
  (validPct ps (fun p => validBetween p.patient_satisfaction 1 5) t).bind fun sat =>
  (validPct ps (fun p => validBetween p.ai_diagnosis_confidence 0 1) t).bind fun conf =>
  .ok ⟨t, a, g, bp, hr, tm, sat, conf⟩

/-- Result row of `analyze_freshness`.  `data_span_days` is
`EXTRACT(day FROM (MAX(created_at) - MIN(created_at)))`, the whole-day part
of the span. -/
structure FreshnessRow where
  oldest_record : Option ℚ
  newest_record : Option ℚ
  data_span_days : Option ℚ
  total_records : Nat
deriving DecidableEq, Repr

/-- The `analyze_freshness` query of `DataQualityAnalyzer`. -/
def analyze_freshness (ps : List Patient) : FreshnessRow :=
  let oldest := sqlMinQ (ps.map (·.created_at))
  let newest := sqlMaxQ (ps.map (·.created_at))
  let span := match oldest, newest with
    | some o, some n => some ((⌊n - o⌋ : ℤ) : ℚ)
    | _, _ => none
  ⟨oldest, newest, span, ps.length⟩

/-- The `stats` CTE of `analyze_anomalies`: population mean and standard
deviation of age, blood pressure and heart rate.  PostgreSQL `STDDEV` is
the sample standard deviation, the square root of
`VAR_SAMP = (n*Σx² - (Σx)²) / (n*(n-1))` over the non-null entries, `NULL`
when fewer than two entries exist.  The embedding carries the variance,
which is exact in `ℚ`; every use of the standard deviation downstream is
either the test `STDDEV = 0` (equivalent to the variance being `0`) or the
comparison `|x - mean| / STDDEV > 3` (equivalent, for a positive variance,
to `(x - mean)² / variance > 9`), so nothing is lost. -/
def sqlVarSamp (l : List (Option ℚ)) : Option ℚ :=
  let v := l.filterMap id
  let n := v.length
  if n < 2 then none
  else some (((n : ℚ) * (v.map (· ^ 2)).sum - v.sum ^ 2) / ((n : ℚ) * ((n : ℚ) - 1)))

/-- The aggregates of the `stats` CTE of `analyze_anomalies`. -/
structure AnomalyStats where
  avg_age : Option ℚ
  var_age : Option ℚ
  avg_bp : Option ℚ
  var_bp : Option ℚ
  avg_hr : Option ℚ
  var_hr : Option ℚ
deriving DecidableEq, Repr

/-- Computes the `stats` CTE over the patient rows. -/
def anomalyStats (ps : List Patient) : AnomalyStats :=
  let ages := ps.map (fun p => p.age.map (Int.cast : Int → ℚ))
  let bps := ps.map (·.blood_pressure)
  let hrs := ps.map (·.heart_rate)
  ⟨sqlAvg ages, sqlVarSamp ages, sqlAvg bps, sqlVarSamp bps, sqlAvg hrs, sqlVarSamp hrs⟩

/-- The square of the z-score expression
`ABS(x - mean) / NULLIF(STDDEV, 0)`: `NULL` when the value, the mean or the
standard deviation is `NULL`, or when the standard deviation is `0`
(`NULLIF` turns the divisor to `NULL`, and division by `NULL` is `NULL` —
never an error); otherwise `(x - mean)² / variance`, the exact square of
the SQL z-score. -/
def zsqOpt (x avg var : Option ℚ) : Option ℚ :=
  match x, avg, var with
  | some v, some m, some s => if s = 0 then none else some ((v - m) ^ 2 / s)
  | _, _, _ => none

/-- The SQL comparison `ABS(x - mean) / NULLIF(STDDEV, 0) > 3` under
three-valued logic: the z-score is nonnegative, so it exceeds `3` exactly
when its square exceeds `9`. -/
def zGt3 (x avg var : Option ℚ) : Option Bool :=
  (zsqOpt x avg var).map (fun z => decide (9 < z))

/-- The `WHERE` clause of `analyze_anomalies`: the three-valued `OR` of the
three z-score comparisons; the row is kept only when it is `TRUE`. -/
def anomalyCond (s : AnomalyStats) (p : Patient) : Bool :=
  sql3Or (sql3Or (zGt3 (p.age.map (Int.cast : Int → ℚ)) s.avg_age s.var_age)
                 (zGt3 p.blood_pressure s.avg_bp s.var_bp))
         (zGt3 p.heart_rate s.avg_hr s.var_hr) == some true

/-- One output row of `analyze_anomalies`.  The three z-score columns are
carried as their exact squares (`NULL` exactly when the SQL z-score is
`NULL`). -/
structure AnomalyRow where
  patient_id : Nat
  age : Option Int
  blood_pressure : Option ℚ
  heart_rate : Option ℚ
  age_zscore_sq : Option ℚ
  bp_zscore_sq : Option ℚ
  hr_zscore_sq : Option ℚ
deriving DecidableEq, Repr

/-- Builds the `SELECT` output row of `analyze_anomalies` for one patient. -/
def mkAnomalyRow (s : AnomalyStats) (p : Patient) : AnomalyRow :=
  ⟨p.patient_id, p.age, p.blood_pressure, p.heart_rate,
   zsqOpt (p.age.map (Int.cast : Int → ℚ)) s.avg_age s.var_age,
   zsqOpt p.blood_pressure s.avg_bp s.var_bp,
   zsqOpt p.heart_rate s.avg_hr s.var_hr⟩

/-- The `analyze_anomalies` query of `DataQualityAnalyzer`: the patients
whose `WHERE` condition is `TRUE`, with their z-score columns, `LIMIT 20`. -/
def analyze_anomalies (ps : List Patient) : List AnomalyRow :=
  ((ps.filter (anomalyCond (anomalyStats ps))).map
    (mkAnomalyRow (anomalyStats ps))).take 20

/-- The mapping returned by `generate_quality_report`. -/
structure QualityReport where
  completeness : CompletenessRow
  freshness : FreshnessRow
  consistency : ConsistencyRow
  anomalies : List AnomalyRow
deriving DecidableEq, Repr

/-- The `generate_quality_report` method of `DataQualityAnalyzer`.  The
method body is `connect(); ...four queries...; close()` with no
`try/finally`, so an exception raised by a query propagates to the caller
before `close()` runs.  The second component records whether the
connection opened by `connect()` is still open when the method exits: it is
`false` (released) only on the successful path. -/
def generate_quality_report (ps : List Patient) :
    Except SqlError QualityReport × Bool :=
  match analyze_completeness ps with
  | .error e => (.error e, true)
  | .ok c =>
    let f := analyze_freshness ps
    match analyze_consistency ps with
    | .error e => (.error e, true)
    | .ok k => (.ok ⟨c, f, k, analyze_anomalies ps⟩, false)

/-! ## DataProfiler (scripts/data_profiling.py) -/

/-- The `ORDER BY count DESC` relation used by the grouped profile
queries: row `a` precedes row `b` when its count metric is at least as
large. -/
def countDescOrder (c : α → Nat) (a b : α) : Prop := c b ≤ c a

instance (c : α → Nat) : DecidableRel (countDescOrder c) :=
  fun a b => Nat.decLe (c b) (c a)

instance (c : α → Nat) : IsTotal α (countDescOrder c) :=
  ⟨fun a b => Nat.le_total (c b) (c a)⟩

instance (c : α → Nat) : IsTrans α (countDescOrder c) :=
  ⟨fun _ _ _ h1 h2 => le_trans h2 h1⟩

/-- A reference entity table (diagnoses, hospitals, medications, doctors):
an id-to-name lookup. -/
abbrev NameTable := List (Nat × String)

/-- An SQL inner join of the patient rows against a reference table on a
nullable foreign id: a patient with a null id, or an id absent from the
table, produces no joined row; otherwise the patient is paired with the
referenced name (reference tables are unique-id lookups). -/
def joinName (ps : List Patient) (dim : NameTable) (key : Patient → Option Nat) :
    List (Patient × String) :=
  ps.filterMap fun p =>
    match key p with
    | none => none
    | some i => ((dim.find? (fun r => r.1 == i)).map (fun r => (p, r.2)))

/-- Result row of `profile_patients_demographics` (grouped by gender). -/
structure GenderRow where
  gender : Option String
  patient_count : Nat
  avg_age : Option ℚ
  min_age : Option Int
  max_age : Option Int
  avg_satisfaction : Option ℚ
  avg_ai_confidence : Option ℚ
deriving DecidableEq, Repr

/-- The `profile_patients_demographics` query: `GROUP BY gender` (SQL
grouping puts all null genders in one group), aggregates per group,
`ORDER BY patient_count DESC`. -/
def profile_patients_demographics (ps : List Patient) : List GenderRow :=
  let rows := ((ps.map (·.gender)).dedup).map fun g =>
    let grp := ps.filter (fun p => decide (p.gender = g))
    ⟨g, grp.length,
     (sqlAvg (grp.map (fun p => p.age.map (Int.cast : Int → ℚ)))).map (pgRound 1),
     sqlMinInt (grp.map (·.age)), sqlMaxInt (grp.map (·.age)),
     (sqlAvg (grp.map (·.patient_satisfaction))).map (pgRound 2),
     (sqlAvg (grp.map (·.ai_diagnosis_confidence))).map (pgRound 3)⟩
  rows.insertionSort (countDescOrder GenderRow.patient_count)

/-- Result row of `profile_diagnosis_distribution`. -/
structure DiagnosisRow where
  diagnosis_name : String
  patient_count : Nat
  percentage : ℚ
  avg_age : Option ℚ
  avg_satisfaction : Option ℚ
  avg_ai_confidence : Option ℚ
deriving DecidableEq, Repr

/-- The `profile_diagnosis_distribution` query: inner join of patients and
diagnoses, `GROUP BY diagnosis_name`, with
`percentage = ROUND(100.0 * COUNT(*) / SUM(COUNT(*)) OVER (), 2)` — the
window sum is the total number of joined rows — then
`ORDER BY patient_count DESC`.  `diagRow` builds one group row; the
window total `SUM(COUNT(*)) OVER ()` is the number of joined rows. -/
def diagRow (j : List (Patient × String)) (nm : String) : DiagnosisRow :=
  let grp := (j.filter (fun x => x.2 == nm)).map (·.1)
  ⟨nm, grp.length, pgRound 2 (100 * (grp.length : ℚ) / (j.length : ℚ)),
   (sqlAvg (grp.map (fun p => p.age.map (Int.cast : Int → ℚ)))).map (pgRound 1),
   (sqlAvg (grp.map (·.patient_satisfaction))).map (pgRound 2),
   (sqlAvg (grp.map (·.ai_diagnosis_confidence))).map (pgRound 3)⟩

def profile_diagnosis_distribution (ps : List Patient) (diagnoses : NameTable) :
    List DiagnosisRow :=
  let j := joinName ps diagnoses Patient.diagnosis_id
  (((j.map (·.2)).dedup).map (diagRow j)).insertionSort
    (countDescOrder DiagnosisRow.patient_count)

/-- Result row of `profile_hospital_performance`. -/
structure HospitalRow where
  hospital_name : String
  patient_count : Nat
  avg_satisfaction : Option ℚ
  avg_recovery_time : Option ℚ
  doctor_count : Nat
  diagnosis_types : Nat
deriving DecidableEq, Repr

/-- The `profile_hospital_performance` query: inner join of patients and
hospitals, `GROUP BY hospital_name`, with `COUNT(DISTINCT ...)` counting
the distinct non-null ids, `ORDER BY patient_count DESC`. -/
def profile_hospital_performance (ps : List Patient) (hospitals : NameTable) :
    List HospitalRow :=
  let j := joinName ps hospitals Patient.hospital_id
  let rows := ((j.map (·.2)).dedup).map fun nm =>
    let grp := (j.filter (fun x => x.2 == nm)).map (·.1)
    ⟨nm, grp.length,
     (sqlAvg (grp.map (·.patient_satisfaction))).map (pgRound 2),
     (sqlAvg (grp.map (·.recovery_time))).map (pgRound 1),
     (grp.filterMap (·.doctor_id)).dedup.length,
     (grp.filterMap (·.diagnosis_id)).dedup.length⟩
  rows.insertionSort (countDescOrder HospitalRow.patient_count)

/-- Result row of `profile_medication_effectiveness`. -/
structure MedicationRow where
  medication_name : String
  prescriptions : Nat
  avg_recovery_time : Option ℚ
  avg_satisfaction : Option ℚ
  avg_treatment_duration : Option ℚ
deriving DecidableEq, Repr

/-- The `profile_medication_effectiveness` query: inner join of patients
and medications, `GROUP BY medication_name`, `ORDER BY prescriptions
DESC`. -/
def profile_medication_effectiveness (ps : List Patient) (medications : NameTable) :
    List MedicationRow :=
  let j := joinName ps medications Patient.medication_id
  let rows := ((j.map (·.2)).dedup).map fun nm =>
    let grp := (j.filter (fun x => x.2 == nm)).map (·.1)
    ⟨nm, grp.length,
     (sqlAvg (grp.map (·.recovery_time))).map (pgRound 1),
     (sqlAvg (grp.map (·.patient_satisfaction))).map (pgRound 2),
     (sqlAvg (grp.map (·.treatment_duration))).map (pgRound 1)⟩
  rows.insertionSort (countDescOrder MedicationRow.prescriptions)

/-- Result row of `profile_doctor_workload`.  `diagnoses` models
`STRING_AGG(DISTINCT diag.diagnosis_name, ', ')` as the aggregated list of
distinct names (the SQL order inside the aggregate is unspecified). -/
structure DoctorRow where
  doctor_name : String
  patient_count : Nat
  avg_satisfaction : Option ℚ
  avg_ai_confidence : Option ℚ
  specialties_count : Nat
  diagnoses : List String
deriving DecidableEq, Repr

/-- The `profile_doctor_workload` query: patients joined with doctors and
with diagnoses (both inner joins), `GROUP BY doctor_name`,
`ORDER BY patient_count DESC`. -/
def profile_doctor_workload (ps : List Patient) (doctors diagnoses : NameTable) :
    List DoctorRow :=
  let j0 := joinName ps doctors Patient.doctor_id
  let j := j0.filterMap fun x =>
    match x.1.diagnosis_id with
    | none => none
    | some i => ((diagnoses.find? (fun r => r.1 == i)).map (fun r => (x.1, x.2, r.2)))
  let rows := ((j.map (fun x => x.2.1)).dedup).map fun nm =>
    let grp := j.filter (fun x => x.2.1 == nm)
    ⟨nm, grp.length,
     (sqlAvg (grp.map (fun x => x.1.patient_satisfaction))).map (pgRound 2),
     (sqlAvg (grp.map (fun x => x.1.ai_diagnosis_confidence))).map (pgRound 3),
     (grp.filterMap (fun x => x.1.diagnosis_id)).dedup.length,
     (grp.map (fun x => x.2.2)).dedup⟩
  rows.insertionSort (countDescOrder DoctorRow.patient_count)

/-- The `CASE` expression of `profile_age_groups` applied to the nullable
`age` column.  A null age makes every `WHEN` condition not-true, so a null
age falls into the `ELSE '75+'` branch. -/
def age_group (a : Option Int) : String :=
  match a with
  | some x =>
    if x < 30 then "18-29"
    else if 30 ≤ x ∧ x ≤ 44 then "30-44"
    else if 45 ≤ x ∧ x ≤ 59 then "45-59"
    else if 60 ≤ x ∧ x ≤ 74 then "60-74"
    else "75+"
  | none => "75+"

/-- The five bucket labels, listed in ascending text order — the order
`ORDER BY age_group` produces. -/
def ageGroupLabels : List String := ["18-29", "30-44", "45-59", "60-74", "75+"]

/-- Result row of `profile_age_groups`. -/
structure AgeGroupRow where
  age_group : String
  patient_count : Nat
  avg_blood_pressure : Option ℚ
  avg_heart_rate : Option ℚ
  avg_recovery_time : Option ℚ
  avg_satisfaction : Option ℚ
deriving DecidableEq, Repr

/-- The `profile_age_groups` query: `GROUP BY age_group` produces one row
per bucket label present in the data, and `ORDER BY age_group` sorts the
rows by the label text ascending — the fixed order of `ageGroupLabels`,
not descending patient count. -/
def profile_age_groups (ps : List Patient) : List AgeGroupRow :=
  ageGroupLabels.filterMap fun lbl =>
    let grp := ps.filter (fun p => age_group p.age == lbl)
    if grp.length = 0 then none
    else some ⟨lbl, grp.length,
      (sqlAvg (grp.map (·.blood_pressure))).map (pgRound 1),
      (sqlAvg (grp.map (·.heart_rate))).map (pgRound 1),
      (sqlAvg (grp.map (·.recovery_time))).map (pgRound 1),
      (sqlAvg (grp.map (·.patient_satisfaction))).map (pgRound 2)⟩

/-! ## Duplicate detection (components/duplicates.py) -/

/-- The grouping key of the potential-duplicate query:
`(age, gender, diagnosis_id, hospital_id)`.  SQL `GROUP BY` treats null
key components as equal, as `Option` equality does. -/
def dupKey (p : Patient) : Option Int × Option String × Option Nat × Option Nat :=
  (p.age, p.gender, p.diagnosis_id, p.hospital_id)

/-- One group row of the potential-duplicate query. -/
structure DupGroupRow where
  age : Option Int
  gender : Option String
  diagnosis_id : Option Nat
  hospital_id : Option Nat
  occurrence_count : Nat
  patient_ids : List Nat
deriving DecidableEq, Repr

/-- The `GROUP BY age, gender, diagnosis_id, hospital_id` stage of the
potential-duplicate query, before the `HAVING` filter: one row per
distinct key, carrying `COUNT(*)` and `ARRAY_AGG(patient_id)`. -/
def dupGroups (ps : List Patient) : List DupGroupRow :=
  ((ps.map dupKey).dedup).map fun k =>
    let grp := ps.filter (fun p => decide (dupKey p = k))
    ⟨k.1, k.2.1, k.2.2.1, k.2.2.2, grp.length, grp.map (·.patient_id)⟩

/-- The `duplicates_query` issued by `display_duplicates_tab`: groups by
`(age, gender, diagnosis_id, hospital_id)`, keeps the groups with
`HAVING COUNT(*) > 1`, orders by `COUNT(*) DESC` and applies `LIMIT 50`. -/
def potential_duplicates (ps : List Patient) : List DupGroupRow :=
  (((dupGroups ps).filter (fun r => decide (1 < r.occurrence_count))).insertionSort
      (countDescOrder DupGroupRow.occurrence_count)).take 50

/-- One row of the true-duplicate query (`GROUP BY patient_id`). -/
structure TrueDupRow where
  patient_id : Nat
  occurrence_count : Nat
deriving DecidableEq, Repr

/-- The `true_duplicates_query` issued by `display_duplicates_tab`: groups
by `patient_id`, keeps groups with more than one row, orders by the count
descending. -/
def true_duplicates (ps : List Patient) : List TrueDupRow :=
  ((((ps.map (·.patient_id)).dedup).map fun i =>
      (⟨i, ps.countP (fun p => p.patient_id == i)⟩ : TrueDupRow)).filter
    (fun r => decide (1 < r.occurrence_count))).insertionSort
      (countDescOrder TrueDupRow.occurrence_count)

/-! ## Connection providers (both analyzer classes) -/

/-- A config file as `configparser` sees it: named sections of key/value
pairs. -/
abbrev ConfigSection := List (String × String)

/-- A parsed config file. -/
abbrev ConfigFile := List (String × ConfigSection)

/-- The process environment and filesystem such as the providers see them:
the `DATABASE_URL` variable and the `database.ini` file (`none` when the
file is missing or unreadable). -/
structure ProviderEnv where
  database_url : Option String
  config_file : Option ConfigFile
deriving DecidableEq, Repr

/-- The configuration errors the providers can raise: `fileNotFound` is
the `FileNotFoundError` raised by `DataProfiler.load_config`,
`sectionMissing` the `KeyError` on the `[postgresql]` section, and
`keyMissing` the `KeyError` on a connection key. -/
inductive ConfigError
  | fileNotFound
  | sectionMissing
  | keyMissing (k : String)
deriving DecidableEq, Repr

/-- A first-match lookup in a section or file. -/
def lookupKey (s : List (String × α)) (k : String) : Option α :=
  (s.find? (fun e => e.1 == k)).map (·.2)

/-- The semantics of `configparser.ConfigParser.read`: a missing or
unreadable file is silently skipped, leaving the parser empty. -/
def configparserRead (file : Option ConfigFile) : ConfigFile := file.getD []

/-- An established database handle: the effective connection URL and
whether TLS (`sslmode=require`) was requested. -/
structure DbConn where
  url : String
  tls : Bool
deriving DecidableEq, Repr

/-- The `load_config` of `DataQualityAnalyzer`: reads the file with
`configparser` (silently tolerating a missing file) and then indexes the
`postgresql` section, raising `KeyError` when it is absent. -/
def qa_load_config (file : Option ConfigFile) : Except ConfigError ConfigSection :=
  match lookupKey (configparserRead file) "postgresql" with
  | some s => .ok s
  | none => .error .sectionMissing

/-- The `__init__` of `DataQualityAnalyzer`: it calls `load_config`
unconditionally, before ever consulting `DATABASE_URL`. -/
def qa_init (env : ProviderEnv) : Except ConfigError ConfigSection :=
  qa_load_config env.config_file

/-- The keyword-argument lookups of `psycopg2.connect(host=..., port=...,
database=..., user=..., password=...)` in `DataQualityAnalyzer.connect`:
the first missing key (in source order) raises `KeyError`. -/
def qaConnFromKeys (s : ConfigSection) : Except ConfigError DbConn :=
  match lookupKey s "host", lookupKey s "port", lookupKey s "database",
        lookupKey s "user", lookupKey s "password" with
  | some h, some p, some d, some u, some w =>
    .ok ⟨"postgresql://" ++ u ++ ":" ++ w ++ "@" ++ h ++ ":" ++ p ++ "/" ++ d, false⟩
  | none, _, _, _, _ => .error (.keyMissing "host")
  | _, none, _, _, _ => .error (.keyMissing "port")
  | _, _, none, _, _ => .error (.keyMissing "database")
  | _, _, _, none, _ => .error (.keyMissing "user")
  | _, _, _, _, none => .error (.keyMissing "password")

/-- The `connect` of `DataQualityAnalyzer`: prefers `DATABASE_URL` (with
`sslmode="require"`), falling back to the stored config section. -/
def qa_connect (env : ProviderEnv) (config : ConfigSection) : Except ConfigError DbConn :=
  match env.database_url with
  | some url => .ok ⟨url, true⟩
  | none => qaConnFromKeys config

/-- The full connection path of `DataQualityAnalyzer`: construction
(`__init__`, which loads the config regardless of the environment) followed
by `connect`. -/
def qa_provider (env : ProviderEnv) : Except ConfigError DbConn :=
  (qa_init env).bind fun cfg => qa_connect env cfg

/-- The `load_config` of `DataProfiler`: checks that the file exists
(raising `FileNotFoundError` otherwise) and that the `postgresql` section
is present (raising a described `KeyError` otherwise). -/
def profiler_load_config (file : Option ConfigFile) : Except ConfigError ConfigSection :=
  match file with
  | none => .error .fileNotFound
  | some cfg =>
    match lookupKey cfg "postgresql" with
    | some s => .ok s
    | none => .error .sectionMissing

/-- The key lookups of the `DataProfiler` connection string, in the order
the f-string evaluates them (`user`, `password`, `host`, `port`,
`database`). -/
def profilerConnFromKeys (s : ConfigSection) : Except ConfigError DbConn :=
  match lookupKey s "user", lookupKey s "password", lookupKey s "host",
        lookupKey s "port", lookupKey s "database" with
  | some u, some w, some h, some p, some d =>
    .ok ⟨"postgresql://" ++ u ++ ":" ++ w ++ "@" ++ h ++ ":" ++ p ++ "/" ++ d, false⟩
  | none, _, _, _, _ => .error (.keyMissing "user")
  | _, none, _, _, _ => .error (.keyMissing "password")
  | _, _, none, _, _ => .error (.keyMissing "host")
  | _, _, _, none, _ => .error (.keyMissing "port")
  | _, _, _, _, none => .error (.keyMissing "database")

/-- The `create_engine` of `DataProfiler` (run from `__init__`, before any
query): `DATABASE_URL` when set (with `sslmode=require`), otherwise the
config file is loaded and the connection string is built from its keys. -/
def profiler_create_engine (env : ProviderEnv) : Except ConfigError DbConn :=
  match env.database_url with
  | some url => .ok ⟨url, true⟩
  | none => (profiler_load_config env.config_file).bind profilerConnFromKeys

/-- A config source is usable for the fallback path when the file exists,
has the `postgresql` section, and the section has all five connection
keys. -/
def configUsable (cf : Option ConfigFile) : Bool :=
  match cf with
  | none => false
  | some c =>
    match lookupKey c "postgresql" with
    | none => false
    | some s =>
      (lookupKey s "host").isSome && (lookupKey s "port").isSome &&
      (lookupKey s "database").isSome && (lookupKey s "user").isSome &&
      (lookupKey s "password").isSome

/-- Whether `configparser` finds a `postgresql` section — the only thing
`DataQualityAnalyzer.__init__` checks. -/
def qaSectionFound (cf : Option ConfigFile) : Bool :=
  (lookupKey (configparserRead cf) "postgresql").isSome

/-! ## Arithmetic lemmas about `pgRound` and percentages -/

lemma pgRound_nonneg (d : Nat) {q : ℚ} (h : 0 ≤ q) : 0 ≤ pgRound d q := by
  unfold pgRound
  rw [if_pos h]
  have hm : (0 : ℚ) < (10 : ℚ) ^ d := by positivity
  apply div_nonneg _ hm.le
  have : (0 : ℤ) ≤ ⌊q * (10 : ℚ) ^ d + 1/2⌋ := by
    rw [Int.floor_nonneg]
    positivity
  exact_mod_cast this

lemma pgRound_mono (d : Nat) {a b : ℚ} (ha : 0 ≤ a) (hab : a ≤ b) :
    pgRound d a ≤ pgRound d b := by
  unfold pgRound
  rw [if_pos ha, if_pos (ha.trans hab)]
  have hm : (0 : ℚ) < (10 : ℚ) ^ d := by positivity
  have hf : (⌊a * (10 : ℚ) ^ d + 1/2⌋ : ℤ) ≤ ⌊b * (10 : ℚ) ^ d + 1/2⌋ :=
    Int.floor_le_floor (by nlinarith)
  have hq : ((⌊a * (10 : ℚ) ^ d + 1/2⌋ : ℤ) : ℚ) ≤ ((⌊b * (10 : ℚ) ^ d + 1/2⌋ : ℤ) : ℚ) := by
    exact_mod_cast hf
  gcongr

lemma pgRound2_hundred : pgRound 2 (100 : ℚ) = 100 := by
  norm_num [pgRound]

lemma pgRound2_le_100 {q : ℚ} (h0 : 0 ≤ q) (h : q ≤ 100) : pgRound 2 q ≤ 100 := by
  have := pgRound_mono 2 h0 h
  rwa [pgRound2_hundred] at this

lemma pgRound2_err {q : ℚ} (h : 0 ≤ q) : |pgRound 2 q - q| ≤ 1/200 := by
  have e : ((10 : ℚ) ^ 2) = 100 := by norm_num
  unfold pgRound
  rw [if_pos h, e]
  have h1 : ((⌊q * 100 + 1/2⌋ : ℤ) : ℚ) ≤ q * 100 + 1/2 := Int.floor_le _
  have h2 : q * 100 + 1/2 < ((⌊q * 100 + 1/2⌋ : ℤ) : ℚ) + 1 := Int.lt_floor_add_one _
  rw [abs_le]
  constructor <;> linarith

/-- The invariant the spec states for one field: both percentages are
non-null, both lie in `[0, 100]`, and validity never exceeds
completeness. -/
def pctOk (c v : Option ℚ) : Prop :=
  ∃ cq vq, c = some cq ∧ v = some vq ∧
    0 ≤ cq ∧ cq ≤ 100 ∧ 0 ≤ vq ∧ vq ≤ 100 ∧ vq ≤ cq

lemma pct_bounds {n t : Nat} (ht : 0 < t) (hn : n ≤ t) :
    0 ≤ pgRound 2 (100 * (n : ℚ) / (t : ℚ)) ∧
      pgRound 2 (100 * (n : ℚ) / (t : ℚ)) ≤ 100 := by
  have htq : (0 : ℚ) < (t : ℚ) := by exact_mod_cast ht
  have h0 : (0 : ℚ) ≤ 100 * (n : ℚ) / (t : ℚ) := by positivity
  have hnq : (n : ℚ) ≤ (t : ℚ) := by exact_mod_cast hn
  have h100 : 100 * (n : ℚ) / (t : ℚ) ≤ 100 := by
    rw [div_le_iff₀ htq]
    nlinarith
  exact ⟨pgRound_nonneg 2 h0, pgRound2_le_100 h0 h100⟩

lemma pct_pair {t vc cc : Nat} (ht : 0 < t) (hvc : vc ≤ cc) (hcc : cc ≤ t) :
    pctOk (some (pgRound 2 (100 * (cc : ℚ) / (t : ℚ))))
          (some (pgRound 2 (100 * (vc : ℚ) / (t : ℚ)))) := by
  have htq : (0 : ℚ) < (t : ℚ) := by exact_mod_cast ht
  obtain ⟨hc0, hc100⟩ := pct_bounds ht hcc
  obtain ⟨hv0, hv100⟩ := pct_bounds ht (hvc.trans hcc)
  refine ⟨_, _, rfl, rfl, hc0, hc100, hv0, hv100, ?_⟩
  apply pgRound_mono 2 (by positivity)
  have hq : (vc : ℚ) ≤ (cc : ℚ) := by exact_mod_cast hvc
  gcongr

/-! ## Evaluation lemmas for the two percentage queries -/

lemma completenessPct_pos {t : Nat} (ht : 0 < t) (c : Nat) :
    completenessPct c t = .ok (some (pgRound 2 (100 * (c : ℚ) / (t : ℚ)))) := by
  have htq : ((t : ℚ)) ≠ 0 := by
    exact_mod_cast ht.ne'
  simp [completenessPct, sqlDiv, htq, Except.map, mul_div_assoc]

lemma validPct_ne_nil {ps : List Patient} (h : ps ≠ []) (cond : Patient → Bool) :
    validPct ps cond ps.length =
      .ok (some (pgRound 2 (100 * (ps.countP cond : ℚ) / (ps.length : ℚ)))) := by
  have ht : ps.length ≠ 0 := (List.length_pos.mpr h).ne'
  have htq : ((ps.length : ℚ)) ≠ 0 := by exact_mod_cast ht
  simp [validPct, caseCountSum, sqlDiv, ht, htq, Except.map, mul_div_assoc]

lemma analyze_completeness_ne_nil {ps : List Patient} (h : ps ≠ []) :
    analyze_completeness ps = .ok
      ⟨ps.length,
       some (pgRound 2 (100 * (countSome (ps.map (·.age)) : ℚ) / (ps.length : ℚ))),
       some (pgRound 2 (100 * (countSome (ps.map (·.gender)) : ℚ) / (ps.length : ℚ))),
       some (pgRound 2 (100 * (countSome (ps.map (·.blood_pressure)) : ℚ) / (ps.length : ℚ))),
       some (pgRound 2 (100 * (countSome (ps.map (·.heart_rate)) : ℚ) / (ps.length : ℚ))),
       some (pgRound 2 (100 * (countSome (ps.map (·.temperature)) : ℚ) / (ps.length : ℚ))),
       some (pgRound 2 (100 * (countSome (ps.map (·.patient_satisfaction)) : ℚ) / (ps.length : ℚ))),
       some (pgRound 2 (100 * (countSome (ps.map (·.ai_diagnosis_confidence)) : ℚ) / (ps.length : ℚ)))⟩ := by
  have ht : 0 < ps.length := List.length_pos.mpr h
  simp [analyze_completeness, completenessPct_pos ht, Except.bind]

lemma analyze_consistency_ne_nil {ps : List Patient} (h : ps ≠ []) :
    analyze_consistency ps = .ok
      ⟨ps.length,
       some (pgRound 2 (100 * (ps.countP validAge : ℚ) / (ps.length : ℚ))),
       some (pgRound 2 (100 * (ps.countP validGender : ℚ) / (ps.length : ℚ))),
       some (pgRound 2 (100 * (ps.countP (fun p => validBetween p.blood_pressure 60 200) : ℚ) / (ps.length : ℚ))),
       some (pgRound 2 (100 * (ps.countP (fun p => validBetween p.heart_rate 40 200) : ℚ) / (ps.length : ℚ))),
       some (pgRound 2 (100 * (ps.countP (fun p => validBetween p.temperature 35 42) : ℚ) / (ps.length : ℚ))),
       some (pgRound 2 (100 * (ps.countP (fun p => validBetween p.patient_satisfaction 1 5) : ℚ) / (ps.length : ℚ))),
       some (pgRound 2 (100 * (ps.countP (fun p => validBetween p.ai_diagnosis_confidence 0 1) : ℚ) / (ps.length : ℚ)))⟩ := by
  simp [analyze_consistency, validPct_ne_nil h, Except.bind]

lemma countP_le_countSome (ps : List Patient) (cond : Patient → Bool)
    (f : Patient → Option α) (h : ∀ p, cond p = true → (f p).isSome = true) :
    ps.countP cond ≤ countSome (ps.map f) := by
  unfold countSome
  rw [List.countP_map]
  exact List.countP_mono_left (fun p _ hp => h p hp)

lemma validBetween_isSome {x : Option ℚ} {lo hi : ℚ}
    (h : validBetween x lo hi = true) : x.isSome = true := by
  cases x <;> simp_all [validBetween]

lemma countSome_le_length (ps : List Patient) (f : Patient → Option α) :
    countSome (ps.map f) ≤ ps.length := by
  unfold countSome
  calc (ps.map f).countP (·.isSome) ≤ (ps.map f).length := List.countP_le_length _
  _ = ps.length := List.length_map _ _

lemma validAge_isSome {p : Patient} (h : validAge p = true) : p.age.isSome = true := by
  cases hpa : p.age <;> simp_all [validAge]

lemma validGender_isSome {p : Patient} (h : validGender p = true) :
    p.gender.isSome = true := by
  cases hpg : p.gender <;> simp_all [validGender]

lemma analyze_completeness_nil :
    analyze_completeness [] = .error .divisionByZero := by
  simp [analyze_completeness, completenessPct, sqlDiv, countSome, Except.bind,
    Except.map]

lemma analyze_consistency_nil :
    analyze_consistency ([] : List Patient) =
      .ok ⟨0, none, none, none, none, none, none, none⟩ := by
  simp [analyze_consistency, validPct, caseCountSum, sqlDiv, Except.bind, Except.map]

/-- C1: on the empty patient set, `analyze_completeness` does NOT guard the
division by zero: `100.0 * count / total_records` with `total_records = 0`
raises the PostgreSQL `division by zero` error instead of returning 0% or
a sentinel.  `analyze_consistency` happens to survive (its numerators are
`SUM`s, which are `NULL` over zero rows, and `NULL / 0` is `NULL`), so its
row carries null percentages. -/
theorem quality_empty_set_division_by_zero :
    analyze_completeness [] = .error .divisionByZero ∧
    analyze_consistency ([] : List Patient) =
      .ok ⟨0, none, none, none, none, none, none, none⟩ :=
  ⟨analyze_completeness_nil, analyze_consistency_nil⟩

/-- C3: for every non-empty patient set and every tracked field, both
percentages are defined, lie in `[0, 100]`, validity never exceeds
completeness, and the two queries divide by the identical
`COUNT(*)` denominator. -/
theorem completeness_consistency_pct_bounds (ps : List Patient) (h : ps ≠ []) :
    ∃ c v, analyze_completeness ps = .ok c ∧ analyze_consistency ps = .ok v ∧
      c.total_records = ps.length ∧ v.total = ps.length ∧
      pctOk c.age_completeness_pct v.valid_age_pct ∧
      pctOk c.gender_completeness_pct v.valid_gender_pct ∧
      pctOk c.bp_completeness_pct v.valid_bp_pct ∧
      pctOk c.hr_completeness_pct v.valid_hr_pct ∧
      pctOk c.temp_completeness_pct v.valid_temp_pct ∧
      pctOk c.satisfaction_completeness_pct v.valid_satisfaction_pct ∧
      pctOk c.ai_confidence_completeness_pct v.valid_ai_confidence_pct := by
  have ht : 0 < ps.length := List.length_pos.mpr h
  refine ⟨_, _, analyze_completeness_ne_nil h, analyze_consistency_ne_nil h,
    rfl, rfl, ?_, ?_, ?_, ?_, ?_, ?_, ?_⟩
  · exact pct_pair ht
      (countP_le_countSome ps validAge (fun p => p.age) (fun p hp => validAge_isSome hp))
      (countSome_le_length ps (fun p => p.age))
  · exact pct_pair ht
      (countP_le_countSome ps validGender (fun p => p.gender)
        (fun p hp => validGender_isSome hp))
      (countSome_le_length ps (fun p => p.gender))
  · exact pct_pair ht
      (countP_le_countSome ps _ (fun p => p.blood_pressure)
        (fun p hp => validBetween_isSome hp))
      (countSome_le_length ps (fun p => p.blood_pressure))
  · exact pct_pair ht
      (countP_le_countSome ps _ (fun p => p.heart_rate)
        (fun p hp => validBetween_isSome hp))
      (countSome_le_length ps (fun p => p.heart_rate))
  · exact pct_pair ht
      (countP_le_countSome ps _ (fun p => p.temperature)
        (fun p hp => validBetween_isSome hp))
      (countSome_le_length ps (fun p => p.temperature))
  · exact pct_pair ht
      (countP_le_countSome ps _ (fun p => p.patient_satisfaction)
        (fun p hp => validBetween_isSome hp))
      (countSome_le_length ps (fun p => p.patient_satisfaction))
  · exact pct_pair ht
      (countP_le_countSome ps _ (fun p => p.ai_diagnosis_confidence)
        (fun p hp => validBetween_isSome hp))
      (countSome_le_length ps (fun p => p.ai_diagnosis_confidence))

/-- A fully populated, fully valid sample patient. -/
def wPatient : Patient :=
  ⟨1, some 50, some "Male", some 120, some 80, some 37, some 3, some (1/2),
   some 10, some 5, some 1, some 1, some 1, some 1, some 0⟩

/-- Witness for C3: the bound theorem instantiated on a singleton set. -/
theorem completeness_consistency_pct_bounds_witness :
    ∃ c v, analyze_completeness [wPatient] = .ok c ∧
      analyze_consistency [wPatient] = .ok v ∧
      c.total_records = 1 ∧ v.total = 1 ∧
      pctOk c.age_completeness_pct v.valid_age_pct := by
  obtain ⟨c, v, h1, h2, h3, h4, h5, -⟩ :=
    completeness_consistency_pct_bounds [wPatient] (List.cons_ne_nil _ _)
  exact ⟨c, v, h1, h2, h3, h4, h5⟩

/-- C7: `generate_quality_report` does NOT release the connection on every
exit path.  Its body is `connect(); ...queries...; close()` with no
`try/finally`, so when a query raises — which happens on the empty patient
set, where `analyze_completeness` divides by zero — the exception
propagates and `close()` never runs: the second component (whether the
connection is still open on exit) is `true`.  On every non-empty set the
happy path runs and the connection is released. -/
theorem report_connection_leak :
    generate_quality_report [] = (.error .divisionByZero, true) ∧
    ∀ ps : List Patient, ps ≠ [] → (generate_quality_report ps).2 = false := by
  constructor
  · simp [generate_quality_report, analyze_completeness_nil]
  · intro ps h
    simp [generate_quality_report, analyze_completeness_ne_nil h,
      analyze_consistency_ne_nil h]

/-- Witness for C7: the leak on the empty set and the release on a
singleton set. -/
theorem report_connection_leak_witness :
    generate_quality_report [] = (.error .divisionByZero, true) ∧
    (generate_quality_report [wPatient]).2 = false :=
  ⟨report_connection_leak.1,
   report_connection_leak.2 [wPatient] (List.cons_ne_nil _ _)⟩

/-! ## C2: the anomaly flagging criterion -/

lemma sql3Or_eq_true (a b : Option Bool) :
    sql3Or a b = some true ↔ a = some true ∨ b = some true := by
  revert a b
  decide

lemma zGt3_eq_true (x m v : Option ℚ) :
    zGt3 x m v = some true ↔ ∃ z, zsqOpt x m v = some z ∧ 9 < z := by
  unfold zGt3
  cases h : zsqOpt x m v <;> simp

/-- The z-score squares of the three monitored fields of one record,
keeping only the defined ones. -/
def definedZsqs (s : AnomalyStats) (p : Patient) : List ℚ :=
  [zsqOpt (p.age.map (Int.cast : Int → ℚ)) s.avg_age s.var_age,
   zsqOpt p.blood_pressure s.avg_bp s.var_bp,
   zsqOpt p.heart_rate s.avg_hr s.var_hr].filterMap id

/-- The spec's flagging criterion for C2, written from the spec's words:
the maximum of the record's defined z-scores exceeds 3.0 — on squares, the
maximum of the defined z-score squares exceeds 9 (the maximum over an
empty list is 0, so a record with no defined z-score is never flagged). -/
def specAnomalous (s : AnomalyStats) (p : Patient) : Prop :=
  9 < (definedZsqs s p).foldr max 0

instance (s : AnomalyStats) (p : Patient) : Decidable (specAnomalous s p) :=
  inferInstanceAs (Decidable (9 < (definedZsqs s p).foldr max 0))

lemma max_foldr_lt (l : List ℚ) : 9 < l.foldr max 0 ↔ ∃ z ∈ l, 9 < z := by
  induction l with
  | nil => simp
  | cons a t ih =>
    simp only [List.foldr_cons, lt_max_iff, ih, List.mem_cons]
    constructor
    · rintro (h | ⟨z, hz, h9⟩)
      · exact ⟨a, Or.inl rfl, h⟩
      · exact ⟨z, Or.inr hz, h9⟩
    · rintro ⟨z, rfl | hz, h9⟩
      · exact Or.inl h9
      · exact Or.inr ⟨z, hz, h9⟩

lemma anomalyCond_iff (s : AnomalyStats) (p : Patient) :
    anomalyCond s p = true ↔ specAnomalous s p := by
  unfold anomalyCond specAnomalous definedZsqs
  simp only [beq_iff_eq, sql3Or_eq_true, zGt3_eq_true, max_foldr_lt]
  cases h1 : zsqOpt (p.age.map (Int.cast : Int → ℚ)) s.avg_age s.var_age <;>
    cases h2 : zsqOpt p.blood_pressure s.avg_bp s.var_bp <;>
    cases h3 : zsqOpt p.heart_rate s.avg_hr s.var_hr <;>
    (first | (simp_all; tauto) | simp_all)

lemma anomalyCond_eq_decide (s : AnomalyStats) (p : Patient) :
    anomalyCond s p = decide (specAnomalous s p) := by
  by_cases hsp : specAnomalous s p
  · simp [hsp, (anomalyCond_iff s p).mpr hsp]
  · have hc : ¬ anomalyCond s p = true := fun hc => hsp ((anomalyCond_iff s p).mp hc)
    simp only [Bool.not_eq_true] at hc
    simp [hsp, hc]

/-- C2: `analyze_anomalies` returns exactly the records — capped at 20 —
for which at least one defined z-score exceeds 3.0 (equivalently, whose
maximum defined z-score exceeds 3.0), with their z-score columns; and a
z-score is null (never an error or an infinity) whenever the field's
standard deviation is 0 or undefined. -/
theorem anomalies_flagging_spec :
    (∀ ps : List Patient,
      analyze_anomalies ps =
        ((ps.filter fun p => decide (specAnomalous (anomalyStats ps) p)).map
          (mkAnomalyRow (anomalyStats ps))).take 20) ∧
    (∀ x m : Option ℚ, zsqOpt x m (some 0) = none ∧ zsqOpt x m none = none) := by
  constructor
  · intro ps
    unfold analyze_anomalies
    rw [List.filter_congr (fun p _ => anomalyCond_eq_decide (anomalyStats ps) p)]
  · intro x m
    constructor <;> cases x <;> cases m <;> simp [zsqOpt]

/-! ## C5 and C9: the age-bucket partition -/

/-- The age-bucket assignment as the spec words it: five half-open ranges
with fixed boundaries, `age < 30`, `30–44`, `45–59`, `60–74`, `≥ 75`. -/
def specAgeBucket (a : Int) : String :=
  if a < 30 then "18-29"
  else if a ≤ 44 then "30-44"
  else if a ≤ 59 then "45-59"
  else if a ≤ 74 then "60-74"
  else "75+"

lemma age_group_mem (o : Option Int) : age_group o ∈ ageGroupLabels := by
  cases o with
  | none => simp [age_group, ageGroupLabels]
  | some a =>
    unfold age_group ageGroupLabels
    dsimp only
    split_ifs <;> simp

/-- C5: the age-bucket assignment of `profile_age_groups` is total and
single-valued with exactly the boundaries the spec states: every age
value falls in exactly one of the five buckets, agreeing with the spec's
range description, with the stated boundary cases. -/
theorem age_bucket_partition :
    (∀ a : Int, age_group (some a) = specAgeBucket a ∧
      age_group (some a) ∈ ageGroupLabels) ∧
    age_group (some 29) = "18-29" ∧ age_group (some 30) = "30-44" ∧
    age_group (some 44) = "30-44" ∧ age_group (some 45) = "45-59" ∧
    age_group (some 74) = "60-74" ∧ age_group (some 75) = "75+" := by
  refine ⟨fun a => ⟨?_, age_group_mem (some a)⟩,
    by decide, by decide, by decide, by decide, by decide, by decide⟩
  unfold age_group specAgeBucket
  dsimp only
  split_ifs <;> first | rfl | omega

lemma sum_map_add_nat (L : List α) (f g : α → Nat) :
    (L.map (fun x => f x + g x)).sum = (L.map f).sum + (L.map g).sum := by
  induction L with
  | nil => simp
  | cons a t ih =>
    simp only [List.map_cons, List.sum_cons, ih]
    omega

lemma countP_labels_one (o : Option Int) :
    (ageGroupLabels.map
      (fun l => if (age_group o == l) = true then 1 else 0)).sum = 1 := by
  have hm := age_group_mem o
  unfold ageGroupLabels at hm ⊢
  simp only [List.mem_cons, List.not_mem_nil, or_false] at hm
  rcases hm with h | h | h | h | h <;> simp [h]

/-- The bucket counts partition the record set: summed over the five
labels, the per-bucket counts give the total record count. -/
lemma sum_bucket_counts (ps : List Patient) :
    (ageGroupLabels.map
      (fun l => ps.countP (fun p => age_group p.age == l))).sum = ps.length := by
  induction ps with
  | cons p t ih =>
    simp only [List.countP_cons]
    rw [sum_map_add_nat, ih, countP_labels_one]
    rfl
  | nil =>
    simp [ageGroupLabels]


lemma sum_filterMap_counts (L : List String) (f : String → Option AgeGroupRow)
    (cnt : String → Nat)
    (h0 : ∀ l, f l = none → cnt l = 0)
    (h1 : ∀ l r, f l = some r → r.patient_count = cnt l) :
    ((L.filterMap f).map (·.patient_count)).sum = (L.map cnt).sum := by
  induction L with
  | nil => rfl
  | cons a t ih =>
    cases hf : f a with
    | none => simp [List.filterMap_cons, hf, h0 a hf, ih]
    | some r => simp [List.filterMap_cons, hf, h1 a r hf, ih]

lemma profile_age_groups_counts (ps : List Patient) :
    ((profile_age_groups ps).map (·.patient_count)).sum = ps.length := by
  rw [← sum_bucket_counts ps]
  unfold profile_age_groups
  apply sum_filterMap_counts
  · intro l hl
    dsimp only at hl
    by_cases h : (ps.filter (fun p => age_group p.age == l)).length = 0
    · rw [List.countP_eq_length_filter]
      exact h
    · rw [if_neg h] at hl
      exact absurd hl (by simp)
  · intro l r hl
    dsimp only at hl
    by_cases h : (ps.filter (fun p => age_group p.age == l)).length = 0
    · rw [if_pos h] at hl
      exact absurd hl (by simp)
    · rw [if_neg h] at hl
      have : r = ⟨l, (ps.filter (fun p => age_group p.age == l)).length,
        (sqlAvg ((ps.filter (fun p => age_group p.age == l)).map (·.blood_pressure))).map (pgRound 1),
        (sqlAvg ((ps.filter (fun p => age_group p.age == l)).map (·.heart_rate))).map (pgRound 1),
        (sqlAvg ((ps.filter (fun p => age_group p.age == l)).map (·.recovery_time))).map (pgRound 1),
        (sqlAvg ((ps.filter (fun p => age_group p.age == l)).map (·.patient_satisfaction))).map (pgRound 2)⟩ := by
        exact (Option.some.injEq _ _ ▸ hl).symm
      rw [this, List.countP_eq_length_filter]

/-- The membership test of the last bucket: `age_group` sends a record to
`'75+'` exactly when its age is at least 75 — or null (the `ELSE`
branch). -/
def inLastBucket (p : Patient) : Bool :=
  match p.age with
  | none => true
  | some a => decide (75 ≤ a)

/-- The records whose age is non-null and at least 75. -/
def ageAtLeast75 (p : Patient) : Bool :=
  match p.age with
  | none => false
  | some a => decide (75 ≤ a)

lemma age_group_75_iff (o : Option Int) :
    (age_group o == "75+") =
      (match o with | none => true | some a => decide (75 ≤ a)) := by
  cases o with
  | none => rfl
  | some a =>
    unfold age_group
    dsimp only
    split_ifs <;> simp <;> omega

lemma countP_75 (ps : List Patient) :
    ps.countP (fun p => age_group p.age == "75+") = ps.countP inLastBucket := by
  induction ps with
  | nil => rfl
  | cons p t ih =>
    simp only [List.countP_cons, ih]
    congr 1
    rw [age_group_75_iff p.age]
    cases hp : p.age <;> simp [inLastBucket, hp]

/-- A patient record with a null age (and every other attribute null). -/
def nullAgeP : Patient :=
  ⟨2, none, none, none, none, none, none, none, none, none, none, none,
   none, none, none⟩

/-- C9: the `CASE` of `profile_age_groups` sends null ages to the `'75+'`
bucket, so the bucket counts partition all records (they sum to the total
record count), the `'75+'` count equals the number of records with age
null or at least 75, and on a concrete null-age record the `'75+'` count
strictly exceeds the number of records with age at least 75. -/
theorem age_groups_null_to_75plus :
    age_group none = "75+" ∧
    (∀ ps : List Patient,
      ((profile_age_groups ps).map (·.patient_count)).sum = ps.length) ∧
    (∀ ps : List Patient,
      ps.countP (fun p => age_group p.age == "75+") = ps.countP inLastBucket) ∧
    (profile_age_groups [nullAgeP]).map (fun r => (r.age_group, r.patient_count)) =
      [("75+", 1)] ∧
    [nullAgeP].countP ageAtLeast75 = 0 := by
  refine ⟨rfl, profile_age_groups_counts, countP_75, ?_, by decide⟩
  decide

/-! ## C4: ordering of the grouped profile queries -/

/-- A patient record carrying only an identifier and an age. -/
def agedP (i : Nat) (a : Int) : Patient :=
  ⟨i, some a, none, none, none, none, none, none, none, none, none, none,
   none, none, none⟩

/-- Counterexample to C4: `profile_age_groups` orders by the bucket label,
not by the count metric descending.  With one record aged 20 and two aged
80 it returns the `18-29` row (count 1) before the `75+` row (count 2). -/
theorem grouped_order_age_groups_cex :
    ¬ List.Sorted (countDescOrder AgeGroupRow.patient_count)
      (profile_age_groups [agedP 1 20, agedP 2 80, agedP 3 80]) := by
  decide

lemma filterMap_map_sublist (L : List α) (f : α → Option β) (g : β → α)
    (h : ∀ a b, f a = some b → g b = a) : ((L.filterMap f).map g).Sublist L := by
  induction L with
  | nil => simp
  | cons a t ih =>
    cases hf : f a with
    | none =>
      simp only [List.filterMap_cons, hf]
      exact ih.cons a
    | some b =>
      simp only [List.filterMap_cons, hf, List.map_cons]
      rw [h a b hf]
      exact ih.cons₂ a

/-- C4 as amended: the five entity-grouped queries (gender, diagnosis,
hospital, medication, doctor) do order their rows by the primary count
metric descending, but `profile_age_groups` instead orders by the bucket
label ascending — its label column is always a sublist of the fixed
ascending label order, and its counts need not descend. -/
theorem grouped_queries_order_amended :
    (∀ ps : List Patient, List.Sorted (countDescOrder GenderRow.patient_count)
      (profile_patients_demographics ps)) ∧
    (∀ ps : List Patient, ∀ ds : NameTable,
      List.Sorted (countDescOrder DiagnosisRow.patient_count)
        (profile_diagnosis_distribution ps ds)) ∧
    (∀ ps : List Patient, ∀ hs : NameTable,
      List.Sorted (countDescOrder HospitalRow.patient_count)
        (profile_hospital_performance ps hs)) ∧
    (∀ ps : List Patient, ∀ ms : NameTable,
      List.Sorted (countDescOrder MedicationRow.prescriptions)
        (profile_medication_effectiveness ps ms)) ∧
    (∀ ps : List Patient, ∀ docs ds : NameTable,
      List.Sorted (countDescOrder DoctorRow.patient_count)
        (profile_doctor_workload ps docs ds)) ∧
    (∀ ps : List Patient,
      ((profile_age_groups ps).map (·.age_group)).Sublist ageGroupLabels) := by
  refine ⟨fun ps => ?_, fun ps ds => ?_, fun ps hs => ?_, fun ps ms => ?_,
    fun ps docs ds => ?_, fun ps => ?_⟩
  · unfold profile_patients_demographics
    exact List.sorted_insertionSort _ _
  · unfold profile_diagnosis_distribution
    exact List.sorted_insertionSort _ _
  · unfold profile_hospital_performance
    exact List.sorted_insertionSort _ _
  · unfold profile_medication_effectiveness
    exact List.sorted_insertionSort _ _
  · unfold profile_doctor_workload
    exact List.sorted_insertionSort _ _
  · unfold profile_age_groups
    apply filterMap_map_sublist
    intro a b hf
    dsimp only at hf
    by_cases h : (ps.filter (fun p => age_group p.age == a)).length = 0
    · rw [if_pos h] at hf
      exact absurd hf (by simp)
    · rw [if_neg h] at hf
      have hb := (Option.some.injEq _ _ ▸ hf)
      rw [← hb]

/-! ## C6: the potential-duplicate detector -/

lemma mem_dupGroups {ps : List Patient} {r : DupGroupRow} (h : r ∈ dupGroups ps) :
    r.occurrence_count = (ps.filter (fun p =>
      decide (dupKey p = (r.age, r.gender, r.diagnosis_id, r.hospital_id)))).length ∧
    r.patient_ids = (ps.filter (fun p =>
      decide (dupKey p = (r.age, r.gender, r.diagnosis_id, r.hospital_id)))).map
        Patient.patient_id := by
  unfold dupGroups at h
  obtain ⟨k, hk, hr⟩ := List.mem_map.mp h
  subst hr
  exact ⟨rfl, rfl⟩

lemma mk_mem_dupGroups {ps : List Patient}
    {k : Option Int × Option String × Option Nat × Option Nat}
    (h : k ∈ (ps.map dupKey).dedup) :
    (⟨k.1, k.2.1, k.2.2.1, k.2.2.2,
      (ps.filter (fun p => decide (dupKey p = k))).length,
      (ps.filter (fun p => decide (dupKey p = k))).map Patient.patient_id⟩ :
        DupGroupRow) ∈ dupGroups ps := by
  unfold dupGroups
  exact List.mem_map.mpr ⟨k, h, rfl⟩

/-- Two records with identical key tuple `(50, F, diagnosis 3, hospital 7)`
and distinct identifiers 10 and 11. -/
def dupA : Patient :=
  ⟨10, some 50, some "F", none, none, none, none, none, none, none, some 3,
   some 7, none, none, none⟩

/-- The second record of the identical pair. -/
def dupB : Patient :=
  ⟨11, some 50, some "F", none, none, none, none, none, none, none, some 3,
   some 7, none, none, none⟩

/-- `dupB` with its age changed. -/
def dupBage : Patient :=
  ⟨11, some 51, some "F", none, none, none, none, none, none, none, some 3,
   some 7, none, none, none⟩

/-- `dupB` with its gender changed. -/
def dupBgender : Patient :=
  ⟨11, some 50, some "M", none, none, none, none, none, none, none, some 3,
   some 7, none, none, none⟩

/-- `dupB` with its diagnosis reference changed. -/
def dupBdiag : Patient :=
  ⟨11, some 50, some "F", none, none, none, none, none, none, none, some 4,
   some 7, none, none, none⟩

/-- `dupB` with its hospital reference changed. -/
def dupBhosp : Patient :=
  ⟨11, some 50, some "F", none, none, none, none, none, none, none, some 3,
   some 8, none, none, none⟩

/-- The one group the pair `[dupA, dupB]` forms. -/
def dupRowAB : DupGroupRow := ⟨some 50, some "F", some 3, some 7, 2, [10, 11]⟩

/-- C6: the potential-duplicate query (1) returns rows ordered by
occurrence count descending, (2) capped at 50 groups, (3) every returned
row is a group with more than one member whose count and member-identifier
list are exactly those of the records sharing its key tuple, (4) whenever
at most 50 groups qualify, every key tuple shared by more than one record
appears as a returned group; and on concrete inputs, two records equal on
all four key fields with different identifiers form one group of count 2
listing both identifiers, while changing any single key field splits them
into two singleton groups, which the `HAVING COUNT(*) > 1` filter then
drops from the output. -/
theorem potential_duplicates_spec :
    (∀ ps : List Patient,
      List.Sorted (countDescOrder DupGroupRow.occurrence_count)
        (potential_duplicates ps) ∧
      (potential_duplicates ps).length ≤ 50 ∧
      (∀ r ∈ potential_duplicates ps,
        1 < r.occurrence_count ∧
        r.occurrence_count = (ps.filter (fun p =>
          decide (dupKey p = (r.age, r.gender, r.diagnosis_id, r.hospital_id)))).length ∧
        r.patient_ids = (ps.filter (fun p =>
          decide (dupKey p = (r.age, r.gender, r.diagnosis_id, r.hospital_id)))).map
            Patient.patient_id) ∧
      (((dupGroups ps).filter (fun r => decide (1 < r.occurrence_count))).length ≤ 50 →
        ∀ k, 1 < (ps.filter (fun p => decide (dupKey p = k))).length →
          ∃ r ∈ potential_duplicates ps,
            (r.age, r.gender, r.diagnosis_id, r.hospital_id) = k)) ∧
    potential_duplicates [dupA, dupB] = [dupRowAB] ∧
    (potential_duplicates [dupA, dupBage] = [] ∧
      (dupGroups [dupA, dupBage]).map (·.occurrence_count) = [1, 1]) ∧
    (potential_duplicates [dupA, dupBgender] = [] ∧
      (dupGroups [dupA, dupBgender]).map (·.occurrence_count) = [1, 1]) ∧
    (potential_duplicates [dupA, dupBdiag] = [] ∧
      (dupGroups [dupA, dupBdiag]).map (·.occurrence_count) = [1, 1]) ∧
    (potential_duplicates [dupA, dupBhosp] = [] ∧
      (dupGroups [dupA, dupBhosp]).map (·.occurrence_count) = [1, 1]) := by
  refine ⟨fun ps => ⟨?_, ?_, ?_, ?_⟩, by decide, ⟨by decide, by decide⟩,
    ⟨by decide, by decide⟩, ⟨by decide, by decide⟩, ⟨by decide, by decide⟩⟩
  · unfold potential_duplicates
    exact List.Pairwise.sublist (List.take_sublist _ _)
      (List.sorted_insertionSort _ _)
  · unfold potential_duplicates
    rw [List.length_take]
    exact min_le_left _ _
  · intro r hr
    have h2 : r ∈ ((dupGroups ps).filter
        (fun r => decide (1 < r.occurrence_count))).insertionSort
          (countDescOrder DupGroupRow.occurrence_count) :=
      List.mem_of_mem_take hr
    have h3 : r ∈ (dupGroups ps).filter (fun r => decide (1 < r.occurrence_count)) :=
      ((List.perm_insertionSort _ _).mem_iff).mp h2
    rw [List.mem_filter] at h3
    obtain ⟨hmem, hgt⟩ := h3
    exact ⟨by simpa using hgt, (mem_dupGroups hmem).1, (mem_dupGroups hmem).2⟩
  · intro hlen k hk
    have hne : (ps.filter (fun p => decide (dupKey p = k))) ≠ [] := by
      intro hnil
      rw [hnil] at hk
      simp at hk
    obtain ⟨x, hx⟩ := List.exists_mem_of_ne_nil _ hne
    rw [List.mem_filter] at hx
    have hkmem : k ∈ (ps.map dupKey).dedup := by
      rw [List.mem_dedup]
      exact List.mem_map.mpr ⟨x, hx.1, by simpa using hx.2⟩
    have hrow := @mk_mem_dupGroups ps k hkmem
    have hfil : (⟨k.1, k.2.1, k.2.2.1, k.2.2.2,
        (ps.filter (fun p => decide (dupKey p = k))).length,
        (ps.filter (fun p => decide (dupKey p = k))).map Patient.patient_id⟩ :
          DupGroupRow) ∈
        (dupGroups ps).filter (fun r => decide (1 < r.occurrence_count)) := by
      rw [List.mem_filter]
      exact ⟨hrow, by simpa using hk⟩
    have hsorted : (⟨k.1, k.2.1, k.2.2.1, k.2.2.2,
        (ps.filter (fun p => decide (dupKey p = k))).length,
        (ps.filter (fun p => decide (dupKey p = k))).map Patient.patient_id⟩ :
          DupGroupRow) ∈
        ((dupGroups ps).filter
          (fun r => decide (1 < r.occurrence_count))).insertionSort
            (countDescOrder DupGroupRow.occurrence_count) :=
      ((List.perm_insertionSort _ _).mem_iff).mpr hfil
    refine ⟨⟨k.1, k.2.1, k.2.2.1, k.2.2.2,
        (ps.filter (fun p => decide (dupKey p = k))).length,
        (ps.filter (fun p => decide (dupKey p = k))).map Patient.patient_id⟩,
      ?_, rfl⟩
    unfold potential_duplicates
    rw [List.take_of_length_le]
    · exact hsorted
    · rw [(List.perm_insertionSort _ _).length_eq]
      exact hlen

/-- Witness for C6: the group membership facts extracted through the
theorem on the concrete identical pair. -/
theorem potential_duplicates_spec_witness :
    dupRowAB ∈ potential_duplicates [dupA, dupB] ∧
    1 < dupRowAB.occurrence_count ∧
    dupRowAB.patient_ids = [10, 11] :=
  ⟨by decide,
   (((potential_duplicates_spec.1 [dupA, dupB]).2.2.1 dupRowAB (by decide))).1,
   rfl⟩

/-! ## C8: credential resolution of the two connection providers -/

/-- An environment where `DATABASE_URL` is set but the config file is
missing. -/
def envUrlNoFile : ProviderEnv := ⟨some "postgresql://u:p@h:5432/db", none⟩

/-- Counterexample to C8: with `DATABASE_URL` set and no config file, the
`DataQualityAnalyzer` provider raises the missing-section `KeyError` from
`__init__` — it fails even though the environment variable is available,
so it does not fail *exactly* when neither source is available. -/
theorem provider_env_preferred_cex :
    envUrlNoFile.database_url.isSome = true ∧
    qa_provider envUrlNoFile = .error .sectionMissing :=
  ⟨rfl, rfl⟩

/-- C8 as amended: `DataProfiler.create_engine` resolves exactly as the
claim states — `DATABASE_URL` preferred with TLS, else the config file,
failing fast exactly when neither the variable is set nor a readable
config with the `[postgresql]` section and all five keys exists.
`DataQualityAnalyzer`, however, loads the config file unconditionally at
construction: it fails whenever `configparser` finds no `[postgresql]`
section, even with `DATABASE_URL` set; when the section is present,
`connect` prefers `DATABASE_URL` with TLS. -/
theorem provider_resolution_amended :
    (∀ u : String, ∀ cf : Option ConfigFile,
      profiler_create_engine ⟨some u, cf⟩ = .ok ⟨u, true⟩) ∧
    (∀ cf : Option ConfigFile,
      (∃ c, profiler_create_engine ⟨none, cf⟩ = .ok c) ↔ configUsable cf = true) ∧
    (∀ url : Option String, ∀ cf : Option ConfigFile, qaSectionFound cf = false →
      qa_provider ⟨url, cf⟩ = .error .sectionMissing) ∧
    (∀ u : String, ∀ cf : Option ConfigFile, qaSectionFound cf = true →
      qa_provider ⟨some u, cf⟩ = .ok ⟨u, true⟩) := by
  refine ⟨fun u cf => rfl, fun cf => ?_, fun url cf h => ?_, fun u cf h => ?_⟩
  · cases cf with
    | none => simp [profiler_create_engine, profiler_load_config, configUsable,
        Except.bind]
    | some c =>
      cases hs : lookupKey c "postgresql" with
      | none => simp [profiler_create_engine, profiler_load_config, configUsable,
          hs, Except.bind]
      | some s =>
        cases h1 : lookupKey s "user" <;> cases h2 : lookupKey s "password" <;>
          cases h3 : lookupKey s "host" <;> cases h4 : lookupKey s "port" <;>
          cases h5 : lookupKey s "database" <;>
          simp [profiler_create_engine, profiler_load_config, profilerConnFromKeys,
            configUsable, hs, h1, h2, h3, h4, h5, Except.bind]
  · unfold qaSectionFound at h
    rw [Bool.eq_false_iff, Ne, Option.isSome_iff_exists] at h
    push_neg at h
    have h : lookupKey (configparserRead cf) "postgresql" = none := by
      cases hl : lookupKey (configparserRead cf) "postgresql" with
      | none => rfl
      | some s => exact absurd hl (h s)
    simp [qa_provider, qa_init, qa_load_config, h, Except.bind]
  · unfold qaSectionFound at h
    obtain ⟨s, hs⟩ := Option.isSome_iff_exists.mp h
    simp [qa_provider, qa_init, qa_load_config, qa_connect, hs, Except.bind]

/-- A complete config file with the `[postgresql]` section and all five
keys. -/
def goodConfig : ConfigFile :=
  [("postgresql",
    [("host", "h"), ("port", "5432"), ("database", "d"), ("user", "u"),
     ("password", "p")])]

/-- Witness for C8's amended theorem on concrete environments. -/
theorem provider_resolution_amended_witness :
    profiler_create_engine ⟨some "postgresql://env", some goodConfig⟩ =
      .ok ⟨"postgresql://env", true⟩ ∧
    (∃ c, profiler_create_engine ⟨none, some goodConfig⟩ = .ok c) ∧
    qa_provider ⟨some "postgresql://env", none⟩ = .error .sectionMissing ∧
    qa_provider ⟨some "postgresql://env", some goodConfig⟩ =
      .ok ⟨"postgresql://env", true⟩ :=
  ⟨provider_resolution_amended.1 "postgresql://env" (some goodConfig),
   (provider_resolution_amended.2.1 (some goodConfig)).mpr (by decide),
   provider_resolution_amended.2.2.1 (some "postgresql://env") none (by decide),
   provider_resolution_amended.2.2.2 "postgresql://env" (some goodConfig) (by decide)⟩

/-! ## C10: the diagnosis-distribution percentages -/

lemma sum_map_cast_nat (L : List α) (f : α → Nat) :
    (L.map (fun x => (f x : ℚ))).sum = ((L.map f).sum : ℚ) := by
  induction L with
  | nil => simp
  | cons a t ih => simp [ih]

lemma sum_map_mul_const (L : List α) (f : α → ℚ) (k : ℚ) :
    (L.map (fun x => f x * k)).sum = (L.map f).sum * k := by
  induction L with
  | nil => simp
  | cons a t ih => simp [ih, add_mul]

lemma sum_round_err (l : List ℚ) (h : ∀ x ∈ l, 0 ≤ x) :
    |(l.map (pgRound 2)).sum - l.sum| ≤ (l.length : ℚ) * (1/200) := by
  induction l with
  | nil => simp
  | cons a t ih =>
    have ha := pgRound2_err (h a (by simp))
    have ht := ih (fun x hx => h x (by simp [hx]))
    simp only [List.map_cons, List.sum_cons, List.length_cons]
    calc |pgRound 2 a + (t.map (pgRound 2)).sum - (a + t.sum)|
        = |(pgRound 2 a - a) + ((t.map (pgRound 2)).sum - t.sum)| := by ring_nf
      _ ≤ |pgRound 2 a - a| + |(t.map (pgRound 2)).sum - t.sum| := abs_add _ _
      _ ≤ 1/200 + (t.length : ℚ) * (1/200) := add_le_add ha ht
      _ = ((t.length + 1 : ℕ) : ℚ) * (1/200) := by push_cast; ring

lemma filter_snd_count (J : List (Patient × String)) (nm : String) :
    (J.filter (fun x => x.2 == nm)).length = List.count nm (J.map (·.2)) := by
  rw [List.count, List.countP_map, ← List.countP_eq_length_filter]
  rfl

lemma diagRow_count (j : List (Patient × String)) (nm : String) :
    (diagRow j nm).patient_count = (j.filter (fun x => x.2 == nm)).length := by
  simp [diagRow]

lemma diagRow_pct (j : List (Patient × String)) (nm : String) :
    (diagRow j nm).percentage =
      pgRound 2 (100 * ((j.filter (fun x => x.2 == nm)).length : ℚ) /
        (j.length : ℚ)) := by
  simp [diagRow]

lemma joinName_diag_isSome {ps : List Patient} {dim : NameTable}
    {x : Patient × String} (hx : x ∈ joinName ps dim Patient.diagnosis_id) :
    x.1.diagnosis_id.isSome = true := by
  unfold joinName at hx
  rw [List.mem_filterMap] at hx
  obtain ⟨p, hp, hf⟩ := hx
  cases hd : p.diagnosis_id with
  | none => rw [hd] at hf; simp at hf
  | some i =>
    rw [hd] at hf
    obtain ⟨r, hr, hxe⟩ := Option.map_eq_some'.mp hf
    rw [← hxe]
    simp [hd]

lemma diag_counts_sum (J : List (Patient × String)) :
    (((J.map (·.2)).dedup).map
      (fun nm => (J.filter (fun x => x.2 == nm)).length)).sum = J.length := by
  have e : ((J.map (·.2)).dedup).map
      (fun nm => (J.filter (fun x => x.2 == nm)).length) =
      ((J.map (·.2)).dedup).map (fun nm => List.count nm (J.map (·.2))) :=
    List.map_congr_left (fun nm _ => filter_snd_count J nm)
  rw [e, List.sum_map_count_dedup_eq_length, List.length_map]

/-- A patient joined to diagnosis 1. -/
def diagP : Patient :=
  ⟨21, none, none, none, none, none, none, none, none, none, some 1, none,
   none, none, none⟩

/-- A patient whose diagnosis reference is null. -/
def noDiagP : Patient :=
  ⟨22, none, none, none, none, none, none, none, none, none, none, none,
   none, none, none⟩

/-- A one-entry diagnosis table. -/
def mixedDs : NameTable := [(1, "flu")]

/-- C10: over the joined patients, the `patient_count` column of
`profile_diagnosis_distribution` sums to the number of joined rows (the
`SUM(COUNT(*)) OVER ()` denominator); the `percentage` column sums to 100
up to the per-row rounding (within `rows * 1/200`); the joined-row count
never exceeds the patient count; null-diagnosis patients are excluded
from the join, and on a concrete set with one null-diagnosis patient the
group counts sum to strictly less than the total patient count. -/
theorem diagnosis_distribution_percentage (ps : List Patient) (ds : NameTable)
    (h : joinName ps ds Patient.diagnosis_id ≠ []) :
    ((profile_diagnosis_distribution ps ds).map (·.patient_count)).sum =
      (joinName ps ds Patient.diagnosis_id).length ∧
    |((profile_diagnosis_distribution ps ds).map (·.percentage)).sum - 100| ≤
      ((profile_diagnosis_distribution ps ds).length : ℚ) * (1/200) ∧
    (joinName ps ds Patient.diagnosis_id).length ≤ ps.length ∧
    (∀ x ∈ joinName ps ds Patient.diagnosis_id, x.1.diagnosis_id.isSome = true) ∧
    ((profile_diagnosis_distribution [diagP, noDiagP] mixedDs).map
      (·.patient_count)).sum < ([diagP, noDiagP] : List Patient).length := by
  have hT : 0 < (joinName ps ds Patient.diagnosis_id).length := List.length_pos.mpr h
  have hTQ : ((joinName ps ds Patient.diagnosis_id).length : ℚ) ≠ 0 := by
    exact_mod_cast hT.ne'
  have hperm : profile_diagnosis_distribution ps ds =
      ((((joinName ps ds Patient.diagnosis_id).map (·.2)).dedup).map
        (diagRow (joinName ps ds Patient.diagnosis_id))).insertionSort
          (countDescOrder DiagnosisRow.patient_count) := rfl
  have hp := List.perm_insertionSort (countDescOrder DiagnosisRow.patient_count)
    ((((joinName ps ds Patient.diagnosis_id).map (·.2)).dedup).map
        (diagRow (joinName ps ds Patient.diagnosis_id)))
  refine ⟨?_, ?_, ?_, fun x hx => joinName_diag_isSome hx, by decide⟩
  · rw [hperm, (hp.map (·.patient_count)).sum_eq, List.map_map]
    have e : (((joinName ps ds Patient.diagnosis_id).map (·.2)).dedup).map
        ((·.patient_count) ∘ diagRow (joinName ps ds Patient.diagnosis_id)) =
        (((joinName ps ds Patient.diagnosis_id).map (·.2)).dedup).map
          (fun nm => ((joinName ps ds Patient.diagnosis_id).filter
            (fun x => x.2 == nm)).length) :=
      List.map_congr_left (fun nm _ => diagRow_count _ nm)
    rw [e, diag_counts_sum]
  · rw [hperm, (hp.map (·.percentage)).sum_eq, List.map_map]
    have e : (((joinName ps ds Patient.diagnosis_id).map (·.2)).dedup).map
        ((·.percentage) ∘ diagRow (joinName ps ds Patient.diagnosis_id)) =
        ((((joinName ps ds Patient.diagnosis_id).map (·.2)).dedup).map
          (fun nm => 100 * (((joinName ps ds Patient.diagnosis_id).filter
            (fun x => x.2 == nm)).length : ℚ) /
            ((joinName ps ds Patient.diagnosis_id).length : ℚ))).map (pgRound 2) := by
      rw [List.map_map]
      exact List.map_congr_left (fun nm _ => diagRow_pct _ nm)
    rw [e]
    have hsum : ((((joinName ps ds Patient.diagnosis_id).map (·.2)).dedup).map
        (fun nm => 100 * (((joinName ps ds Patient.diagnosis_id).filter
          (fun x => x.2 == nm)).length : ℚ) /
          ((joinName ps ds Patient.diagnosis_id).length : ℚ))).sum = 100 := by
      have e2 : (((joinName ps ds Patient.diagnosis_id).map (·.2)).dedup).map
          (fun nm => 100 * (((joinName ps ds Patient.diagnosis_id).filter
            (fun x => x.2 == nm)).length : ℚ) /
            ((joinName ps ds Patient.diagnosis_id).length : ℚ)) =
          (((joinName ps ds Patient.diagnosis_id).map (·.2)).dedup).map
            (fun nm => ((((joinName ps ds Patient.diagnosis_id).filter
              (fun x => x.2 == nm)).length : ℚ)) *
              (100 / ((joinName ps ds Patient.diagnosis_id).length : ℚ))) :=
        List.map_congr_left (fun nm _ => by ring)
      rw [e2, sum_map_mul_const]
      have e3 : (((joinName ps ds Patient.diagnosis_id).map (·.2)).dedup).map
          (fun nm => ((((joinName ps ds Patient.diagnosis_id).filter
            (fun x => x.2 == nm)).length : ℚ))) =
          (((joinName ps ds Patient.diagnosis_id).map (·.2)).dedup).map
            (fun nm => (((fun nm => ((joinName ps ds Patient.diagnosis_id).filter
              (fun x => x.2 == nm)).length) nm : ℕ) : ℚ)) := rfl
      rw [e3, sum_map_cast_nat, diag_counts_sum]
      field_simp
    have hnonneg : ∀ x ∈ (((joinName ps ds Patient.diagnosis_id).map (·.2)).dedup).map
        (fun nm => 100 * (((joinName ps ds Patient.diagnosis_id).filter
          (fun x => x.2 == nm)).length : ℚ) /
          ((joinName ps ds Patient.diagnosis_id).length : ℚ)), 0 ≤ x := by
      intro x hx
      rw [List.mem_map] at hx
      obtain ⟨nm, _, hxe⟩ := hx
      rw [← hxe]
      positivity
    have herr := sum_round_err _ hnonneg
    rw [hsum] at herr
    have hlen : (List.insertionSort (countDescOrder DiagnosisRow.patient_count)
        ((((joinName ps ds Patient.diagnosis_id).map (·.2)).dedup).map
          (diagRow (joinName ps ds Patient.diagnosis_id)))).length =
        ((((joinName ps ds Patient.diagnosis_id).map (·.2)).dedup).map
          (fun nm => 100 * (((joinName ps ds Patient.diagnosis_id).filter
            (fun x => x.2 == nm)).length : ℚ) /
            ((joinName ps ds Patient.diagnosis_id).length : ℚ))).length := by
      rw [hp.length_eq]
      simp
    rw [hlen]
    exact herr
  · unfold joinName
    exact List.length_filterMap_le _ _

/-- Witness for C10: the theorem instantiated on the concrete mixed set
with one joined and one null-diagnosis patient. -/
theorem diagnosis_distribution_percentage_witness :
    ((profile_diagnosis_distribution [diagP, noDiagP] mixedDs).map
      (·.patient_count)).sum =
      (joinName [diagP, noDiagP] mixedDs Patient.diagnosis_id).length ∧
    (joinName [diagP, noDiagP] mixedDs Patient.diagnosis_id).length ≤ 2 :=
  ⟨(diagnosis_distribution_percentage [diagP, noDiagP] mixedDs (by decide)).1,
   (diagnosis_distribution_percentage [diagP, noDiagP] mixedDs (by decide)).2.2.1⟩
